import Mathlib

/-!
Verification development for the admin credential / session core of the
logos-waitlist repository.

The embedded code lives in:
  - `AdminService` (server/src/services/admin.service.js): credential store,
    lockout state machine, token store, audit log;
  - the auth routes (server/src/routes/auth.routes.js): login / refresh /
    change-password HTTP handlers;
  - the middleware (server/src/middleware/auth.js): JWT issuance and
    verification, login rate limiter configuration.

Timestamps are modelled as natural numbers (milliseconds), the SQLite tables
as Lean lists of records, and thrown JS `Error` values as `Except String`.
The external bcryptjs / jsonwebtoken / sha256 primitives are modelled as
injective tagging functions: the control flow around them, which is what the
claims are about, is translated verbatim.
-/

namespace LogosWaitlist

/-- Security constants from admin.service.js. -/
def MAX_LOGIN_ATTEMPTS : Nat := 5

/-- Lockout duration from admin.service.js: 15 minutes in milliseconds. -/
def LOCKOUT_DURATION : Nat := 15 * 60 * 1000

/-- Model of `bcrypt.hash(password, SALT_ROUNDS)` from the external bcryptjs
dependency: an injective one-way tagging of the password. -/
def bcryptHash (password : String) : String :=
  "bcrypt:" ++ password

/-- Model of `bcrypt.compare(password, hash)`: true exactly when `hash` is the
bcrypt hash of `password`. -/
def bcryptCompare (password hash : String) : Bool :=
  bcryptHash password == hash

/-- One row of the `admins` table (admin.service.js `initDatabase`). -/
structure Admin where
  id : Nat
  username : String
  password : String
  role : String
  email : Option String
  createdAt : Nat
  lastLogin : Option Nat
  loginAttempts : Nat
  lockedUntil : Option Nat
  isActive : Bool
deriving Repr, DecidableEq

/-- The sanitized admin returned by `authenticate` / `sanitizeUser`: the JS
object spread `const { password: _, ...safeAdmin } = admin` keeps every field
except the password hash. -/
structure SafeAdmin where
  id : Nat
  username : String
  role : String
  email : Option String
  createdAt : Nat
  lastLogin : Option Nat
  loginAttempts : Nat
  lockedUntil : Option Nat
  isActive : Bool
deriving Repr, DecidableEq

/-- Model of `sanitizeUser` (middleware/auth.js): strip the password field. -/
def sanitizeUser (a : Admin) : SafeAdmin :=
  ⟨a.id, a.username, a.role, a.email, a.createdAt, a.lastLogin,
   a.loginAttempts, a.lockedUntil, a.isActive⟩

/-- One row of the `refresh_tokens` table. -/
structure RefreshTokenRow where
  id : Nat
  adminId : Nat
  tokenHash : String
  expiresAt : Nat
  createdAt : Nat
  revoked : Bool
deriving Repr, DecidableEq

/-- One row of the `admin_audit_log` table. -/
structure AuditLogRow where
  adminId : Option Nat
  action : String
  ipAddress : Option String
  userAgent : Option String
  success : Bool
  details : Option String
deriving Repr, DecidableEq

/-- The persistent state of admin.db: the three tables owned by
`AdminService`. -/
structure AdminDb where
  admins : List Admin
  refreshTokens : List RefreshTokenRow
  auditLog : List AuditLogRow
deriving Repr, DecidableEq

/-- Model of `logAudit` (admin.service.js): `INSERT INTO admin_audit_log`. -/
def logAudit (db : AdminDb) (adminId : Option Nat) (action : String)
    (ipAddress userAgent : Option String) (success : Bool)
    (details : Option String) : AdminDb :=
  { db with auditLog :=
      db.auditLog ++ [⟨adminId, action, ipAddress, userAgent, success, details⟩] }

/-- Model of `UPDATE admins SET ... WHERE id = ?`: apply `f` to every row whose
id matches. -/
def updateAdmin (db : AdminDb) (aid : Nat) (f : Admin → Admin) : AdminDb :=
  { db with admins := db.admins.map fun x => if x.id == aid then f x else x }

/-- Model of `SELECT * FROM admins WHERE username = ?` followed by `.get()`:
the first matching row, if any. -/
def findAdminByUsername (db : AdminDb) (u : String) : Option Admin :=
  db.admins.find? fun x => x.username == u

/-- Model of `storeRefreshToken` (admin.service.js): `INSERT INTO
refresh_tokens (admin_id, token_hash, expires_at)`. -/
def storeRefreshToken (db : AdminDb) (adminId : Nat) (tokenHash : String)
    (expiresAt : Nat) (now : Nat) : AdminDb :=
  { db with refreshTokens :=
      db.refreshTokens ++
        [⟨db.refreshTokens.length, adminId, tokenHash, expiresAt, now, false⟩] }

/-- Model of `AdminService.verifyRefreshToken`: select the token row matching
the hash that is not revoked and not yet expired
(`expires_at > CURRENT_TIMESTAMP`). -/
def verifyRefreshToken (db : AdminDb) (tokenHash : String) (now : Nat) :
    Option RefreshTokenRow :=
  db.refreshTokens.find? fun t =>
    t.tokenHash == tokenHash && !t.revoked && now < t.expiresAt

/-- Model of `AdminService.revokeRefreshToken`: `UPDATE refresh_tokens SET
revoked = 1 WHERE token_hash = ?`. -/
def revokeRefreshToken (db : AdminDb) (tokenHash : String) : AdminDb :=
  { db with refreshTokens := db.refreshTokens.map fun t =>
      if t.tokenHash == tokenHash then { t with revoked := true } else t }

/-- Model of `AdminService.revokeAllRefreshTokens`: `UPDATE refresh_tokens SET
revoked = 1 WHERE admin_id = ?`. -/
def revokeAllRefreshTokens (db : AdminDb) (adminId : Nat) : AdminDb :=
  { db with refreshTokens := db.refreshTokens.map fun t =>
      if t.adminId == adminId then { t with revoked := true } else t }

/-- Model of `AdminService.deactivateAdmin`: set `is_active = 0` and revoke all
refresh tokens of that admin. -/
def deactivateAdmin (db : AdminDb) (id : Nat) : AdminDb :=
  revokeAllRefreshTokens (updateAdmin db id fun a => { a with isActive := false }) id

/-- Model of `AdminService.activateAdmin`: set `is_active = 1` only. -/
def activateAdmin (db : AdminDb) (id : Nat) : AdminDb :=
  updateAdmin db id fun a => { a with isActive := true }

/-- The projection returned by `getAdminById`: the SELECT lists the columns
id, username, email, role, created_at, last_login, is_active (no password,
no attempt counters). -/
structure AdminPublicRow where
  id : Nat
  username : String
  email : Option String
  role : String
  createdAt : Nat
  lastLogin : Option Nat
  isActive : Bool
deriving Repr, DecidableEq

/-- Model of `AdminService.getAdminById`. -/
def getAdminById (db : AdminDb) (id : Nat) : Option AdminPublicRow :=
  (db.admins.find? fun x => x.id == id).map fun a =>
    ⟨a.id, a.username, a.email, a.role, a.createdAt, a.lastLogin, a.isActive⟩

/-- Model of `username.toLowerCase().trim()` (the normalization at the top of
`authenticate` and `createAdmin`), implemented over character lists so that it
evaluates in the kernel: lowercase every character, then strip leading and
trailing whitespace. -/
def normalizeUsername (s : String) : String :=
  String.mk
    ((((s.data.map Char.toLower).dropWhile Char.isWhitespace).reverse.dropWhile
        Char.isWhitespace).reverse)

/-- The `Account locked` message built in `authenticate`, with the remaining
minutes rounded up (`Math.ceil((lockUntil - now) / 60000)`). -/
def accountLockedMsg (minutesLeft : Nat) : String :=
  "Account locked. Try again in " ++ toString minutesLeft ++ " minutes."

/-- The audit `details` string written on a password mismatch. -/
def attemptDetails (n : Nat) : String :=
  "Invalid password (attempt " ++ toString n ++ "/" ++
    toString MAX_LOGIN_ATTEMPTS ++ ")"

/-- The part of `AdminService.authenticate` after the lockout check, operating
on the row `admin` as fetched at the start of the call (the JS code keeps
using the in-memory `admin` object even after a lock-expiry UPDATE, so
`admin.loginAttempts` here can be stale relative to `db`). -/
def authenticateUnlocked (db : AdminDb) (admin : Admin) (password : String)
    (ipAddress userAgent : Option String) (now : Nat) :
    AdminDb × Except String SafeAdmin :=
  if !admin.isActive then
    (logAudit db (some admin.id) "login_failed" ipAddress userAgent false
       (some "Account disabled"),
     .error "Account is disabled")
  else if !(bcryptCompare password admin.password) then
    let newAttempts := admin.loginAttempts + 1
    if MAX_LOGIN_ATTEMPTS ≤ newAttempts then
      (logAudit
         (updateAdmin db admin.id fun a =>
           { a with loginAttempts := newAttempts,
                    lockedUntil := some (now + LOCKOUT_DURATION) })
         (some admin.id) "login_failed" ipAddress userAgent false
         (some (attemptDetails newAttempts)),
       .error "Too many failed attempts. Account locked for 15 minutes.")
    else
      (logAudit
         (updateAdmin db admin.id fun a =>
           { a with loginAttempts := newAttempts, lockedUntil := none })
         (some admin.id) "login_failed" ipAddress userAgent false
         (some (attemptDetails newAttempts)),
       .error "Invalid credentials")
  else
    (logAudit
       (updateAdmin db admin.id fun a =>
         { a with loginAttempts := 0, lockedUntil := none,
                  lastLogin := some now })
       (some admin.id) "login_success" ipAddress userAgent true none,
     .ok (sanitizeUser admin))

/-- Model of `AdminService.authenticate`. Returns the updated database and
either the sanitized admin or the message of the thrown `Error`. The
`simulateDelay()` call on the unknown-user path is a pure timing side effect
with no effect on state or result and is not modelled. -/
def authenticate (db : AdminDb) (username password : String)
    (ipAddress userAgent : Option String) (now : Nat) :
    AdminDb × Except String SafeAdmin :=
  let uname := normalizeUsername username
  match findAdminByUsername db uname with
  | none =>
      (logAudit db none "login_failed" ipAddress userAgent false
         (some "User not found"),
       .error "Invalid credentials")
  | some admin =>
      match admin.lockedUntil with
      | some lockUntil =>
          if now < lockUntil then
            (logAudit db (some admin.id) "login_failed" ipAddress userAgent
               false (some "Account locked"),
             .error (accountLockedMsg ((lockUntil - now + 59999) / 60000)))
          else
            authenticateUnlocked
              (updateAdmin db admin.id fun a =>
                { a with loginAttempts := 0, lockedUntil := none })
              admin password ipAddress userAgent now
      | none =>
          authenticateUnlocked db admin password ipAddress userAgent now

/-- Model of `AdminService.changePassword`. Note that the
new-password-too-short and admin-not-found branches throw without touching the
database (in particular without an audit write). -/
def changePassword (db : AdminDb) (adminId : Nat)
    (oldPassword newPassword : String) : AdminDb × Except String Bool :=
  if newPassword.length < 8 then
    (db, .error "New password must be at least 8 characters")
  else
    match db.admins.find? (fun x => x.id == adminId) with
    | none => (db, .error "Admin not found")
    | some admin =>
      if !(bcryptCompare oldPassword admin.password) then
        (logAudit db (some adminId) "password_change_failed" none none false
           (some "Invalid old password"),
         .error "Invalid old password")
      else
        let db1 := updateAdmin db adminId fun a =>
          { a with password := bcryptHash newPassword }
        let db2 := revokeAllRefreshTokens db1 adminId
        (logAudit db2 (some adminId) "password_changed" none none true none,
         .ok true)

/-- Payload of a refresh JWT (middleware/auth.js `generateRefreshToken`):
`{ id, type: "refresh" }`. -/
structure RefreshPayload where
  id : Nat
  type : String
deriving Repr, DecidableEq

/-- Model of a signed refresh JWT: payload plus the secret it was signed with
(signature verification succeeds iff the verifying secret matches). -/
structure RefreshJwt where
  payload : RefreshPayload
  signedWith : String
deriving Repr, DecidableEq

/-- Model of `generateRefreshToken` (middleware/auth.js): sign
`{ id, type: "refresh" }` with the server secret. -/
def generateRefreshToken (userId : Nat) (secret : String) : RefreshJwt :=
  ⟨⟨userId, "refresh"⟩, secret⟩

/-- Claims of an access JWT (`generateAccessToken`): `{ id, username, role }`. -/
structure AccessClaims where
  id : Nat
  username : String
  role : String
deriving Repr, DecidableEq

/-- Model of a signed access JWT. -/
structure AccessJwt where
  claims : AccessClaims
  signedWith : String
deriving Repr, DecidableEq

/-- Model of `generateAccessToken` (middleware/auth.js). -/
def generateAccessToken (id : Nat) (username role : String)
    (secret : String) : AccessJwt :=
  ⟨⟨id, username, role⟩, secret⟩

/-- Model of `jwt.verify(token, JWT_SECRET)` on a refresh token: the payload
when the signature checks out, `none` otherwise. -/
def jwtVerifyRefresh (token : RefreshJwt) (secret : String) :
    Option RefreshPayload :=
  if token.signedWith == secret then some token.payload else none

/-- Model of `verifyRefreshToken` from middleware/auth.js: verify the
signature, then the `type` claim; throws (models as `.error`) on failure and
never returns a null payload. -/
def mwVerifyRefreshToken (token : RefreshJwt) (secret : String) :
    Except String RefreshPayload :=
  match jwtVerifyRefresh token secret with
  | none => .error "invalid token"
  | some decoded =>
      if decoded.type != "refresh" then .error "Invalid token type"
      else .ok decoded

/-- Model of `crypto.createHash("sha256").update(rawToken).digest("hex")`
applied to the serialized refresh JWT: an injective tagging of the token. -/
def sha256Hex (token : RefreshJwt) : String :=
  "sha256:" ++ toString token.payload.id ++ ":" ++ token.payload.type ++
    ":" ++ token.signedWith

/-- An HTTP error response: status code, `error` message, optional `code`. -/
structure ApiFailure where
  status : Nat
  error : String
  code : Option String
deriving Repr, DecidableEq

/-- The login route (routes/auth.routes.js) maps every error thrown by
`AdminService.authenticate` to HTTP 401 with the thrown message as the
`error` field (`res.status(401).json({ success: false, error: error.message })`). -/
def loginFailureResponse (msg : String) : ApiFailure :=
  ⟨401, msg, none⟩

/-- Model of `POST /api/auth/refresh` (routes/auth.routes.js). The token comes
from the `refresh_token` cookie or the request body. Because
`mwVerifyRefreshToken` throws instead of returning null, a signature or type
failure lands in the route's catch block (500, "Failed to refresh token");
the `if (!decoded)` 403 INVALID_REFRESH_TOKEN branch in the source is dead
code and hence unreachable here too. The route performs no database write:
the refresh token is re-verified but not rotated. -/
def refreshRoute (db : AdminDb) (cookieToken bodyToken : Option RefreshJwt)
    (secret : String) (now : Nat) : AdminDb × Except ApiFailure AccessJwt :=
  match cookieToken.orElse (fun _ => bodyToken) with
  | none => (db, .error ⟨401, "Refresh token required", some "NO_REFRESH_TOKEN"⟩)
  | some refreshToken =>
    match mwVerifyRefreshToken refreshToken secret with
    | .error _ => (db, .error ⟨500, "Failed to refresh token", none⟩)
    | .ok decoded =>
      let tokenHash := sha256Hex refreshToken
      match verifyRefreshToken db tokenHash now with
      | none =>
          (db, .error ⟨403, "Refresh token expired or revoked",
                       some "TOKEN_REVOKED"⟩)
      | some _ =>
        match getAdminById db decoded.id with
        | none =>
            (db, .error ⟨403, "Account not found or disabled",
                         some "ACCOUNT_DISABLED"⟩)
        | some admin =>
          if !admin.isActive then
            (db, .error ⟨403, "Account not found or disabled",
                         some "ACCOUNT_DISABLED"⟩)
          else
            (db, .ok (generateAccessToken admin.id admin.username admin.role
                        secret))

/-- State of the login rate limiter for one caller address.

Modelled from the spec: the `express-rate-limit` package backing
`loginRateLimiter` (middleware/auth.js) is an external dependency whose source
is not part of this repository. Per the spec (§4.3: a 15-minute window of 5
login attempts keyed by caller address) and the configuration in the source
(`windowMs: 15 * 60 * 1000, max: 5, skipSuccessfulRequests: true`), within one
window each arriving request increments the per-address hit count, a request
over the limit is rejected, and when the response turns out successful the hit
is credited back (`skipSuccessfulRequests`), so only failed requests consume
the budget. -/
structure RateLimiterState where
  hits : Nat
deriving Repr, DecidableEq

/-- The configured `max` of `loginRateLimiter`. -/
def loginRateLimiterMax : Nat := 5

/-- Outcome of one login request as seen through the rate limiter. -/
inductive LoginOutcome where
  | success
  | failure
  | rateLimited
deriving Repr, DecidableEq

/-- Modelled from the spec: one login request through `loginRateLimiter`
within a single window. `authSucceeds` says whether the login itself would
succeed (response status < 400). -/
def loginRateLimiterStep (st : RateLimiterState) (authSucceeds : Bool) :
    RateLimiterState × LoginOutcome :=
  let current := st.hits + 1
  if loginRateLimiterMax < current then (⟨current⟩, .rateLimited)
  else if authSucceeds then (st, .success)
  else (⟨current⟩, .failure)

/-- Run a sequence of login requests through the rate limiter within one
window. -/
def runLoginRequests (st : RateLimiterState) :
    List Bool → RateLimiterState × List LoginOutcome
  | [] => (st, [])
  | b :: bs =>
      let step := loginRateLimiterStep st b
      let rest := runLoginRequests step.1 bs
      (rest.1, step.2 :: rest.2)

/-! Concrete fixtures used by witnesses and counterexamples. -/

/-- The seeded default admin (`createDefaultAdmin`): username "admin",
password "admin123". -/
def adminSeed : Admin :=
  { id := 1, username := "admin", password := bcryptHash "admin123",
    role := "admin", email := none, createdAt := 0, lastLogin := none,
    loginAttempts := 0, lockedUntil := none, isActive := true }

/-- A database holding just the seeded admin. -/
def dbSeed : AdminDb :=
  { admins := [adminSeed], refreshTokens := [], auditLog := [] }

/-- A refresh token issued to the seeded admin. -/
def jwtSeed : RefreshJwt := generateRefreshToken 1 "server-secret"

/-- The stored row for `jwtSeed`. -/
def tokenRowSeed : RefreshTokenRow :=
  { id := 0, adminId := 1, tokenHash := sha256Hex jwtSeed,
    expiresAt := 604800000, createdAt := 0, revoked := false }

/-- A database holding the seeded admin and one live refresh token. -/
def dbTok : AdminDb :=
  { admins := [adminSeed], refreshTokens := [tokenRowSeed], auditLog := [] }

/-- The admin row as left by one below-threshold failed attempt: attempt
counter bumped, no lock. -/
def failedOnce (a : Admin) : Admin :=
  { a with loginAttempts := a.loginAttempts + 1, lockedUntil := none }

/-- The admin row as left by the failed attempt that reaches the threshold at
time `t`: counter bumped and `lockedUntil = t + LOCKOUT_DURATION`. -/
def lockedRow (a : Admin) (t : Nat) : Admin :=
  { a with loginAttempts := a.loginAttempts + 1,
           lockedUntil := some (t + LOCKOUT_DURATION) }

/-! Helper lemmas about the list-backed UPDATE statements. -/

/-- Membership in a selectively mapped list: each element comes from an
original element, updated when the condition held. -/
lemma mem_selectiveMap {α : Type} (l : List α) (c : α → Bool) (f : α → α)
    (x : α) (hx : x ∈ l.map fun y => if c y then f y else y) :
    (∃ y ∈ l, c y = true ∧ x = f y) ∨ (∃ y ∈ l, c y = false ∧ x = y) := by
  rcases List.mem_map.mp hx with ⟨y, hy, hxy⟩
  by_cases hc : c y = true
  · exact Or.inl ⟨y, hy, hc, by rw [← hxy, if_pos hc]⟩
  · have hc2 : c y = false := by simpa using hc
    exact Or.inr ⟨y, hy, hc2, by rw [← hxy, if_neg (by simp [hc2])]⟩

/-- A `find?` by username survives an `updateAdmin` keyed by the id of the
found row, provided the update keeps id and username and equal ids imply
equal usernames in the table. -/
lemma find?_username_updateAdmin (l : List Admin) (a : Admin)
    (f : Admin → Admin) (u : String)
    (hf : ∀ x, (f x).id = x.id ∧ (f x).username = x.username)
    (hid : ∀ x ∈ l, x.id = a.id → x.username = a.username)
    (hfind : l.find? (fun x => x.username == u) = some a) :
    (l.map fun x => if x.id == a.id then f x else x).find?
      (fun x => x.username == u) = some (f a) := by
  have hau := List.find?_some hfind
  induction l with
  | nil => simp at hfind
  | cons x xs ih =>
    rw [List.find?_cons_eq_some] at hfind
    rw [List.map_cons, List.find?_cons_eq_some]
    rcases hfind with ⟨hpx, hxa⟩ | ⟨hnpx, hrest⟩
    · obtain rfl := hxa
      refine Or.inl ⟨?_, ?_⟩
      · simp only [beq_self_eq_true, if_true]
        show ((f x).username == u) = true
        rw [(hf x).2]
        exact hpx
      · simp
    · have hxid : (x.id == a.id) = false := by
        by_contra hcon
        have hxeq : x.id = a.id := by
          have := Bool.not_eq_false (x.id == a.id) |>.mp hcon
          simpa using this
        have hxu := hid x (by simp) hxeq
        have : (x.username == u) = true := by
          rw [hxu]
          exact hau
        simp [this] at hnpx
      refine Or.inr ⟨?_, ?_⟩
      · simp only [hxid]
        simpa using hnpx
      · exact ih (fun y hy h => hid y (List.mem_cons_of_mem _ hy) h) hrest

/-- The equal-ids-equal-usernames side condition survives `updateAdmin` with
an id- and username-preserving row function. -/
lemma hid_updateAdmin (l : List Admin) (a : Admin) (f : Admin → Admin)
    (hf : ∀ x, (f x).id = x.id ∧ (f x).username = x.username)
    (hfa_id : (f a).id = a.id) (hfa_u : (f a).username = a.username)
    (hid : ∀ x ∈ l, x.id = a.id → x.username = a.username) :
    ∀ x ∈ (l.map fun x => if x.id == a.id then f x else x),
      x.id = (f a).id → x.username = (f a).username := by
  intro x hx hxid
  rw [hfa_id] at hxid
  rw [hfa_u]
  rcases mem_selectiveMap l (fun z => z.id == a.id) f x hx with
    ⟨y, hy, _, hxy⟩ | ⟨y, hy, _, hxy⟩
  · subst hxy
    rw [(hf y).2]
    exact hid y hy (by rw [← (hf y).1]; exact hxid)
  · subst hxy
    exact hid _ hy hxid

/-- Every row touched by an `updateAdmin` keyed on `aid` satisfies any
property guaranteed by the row function. -/
lemma updateAdmin_mem_prop (db : AdminDb) (aid : Nat) (f : Admin → Admin)
    (P : Admin → Prop) (hP : ∀ x, P (f x)) :
    ∀ x ∈ (updateAdmin db aid f).admins, x.id = aid → P x := by
  intro x hx hxid
  rcases mem_selectiveMap db.admins (fun z => z.id == aid) f x hx with
    ⟨y, _, _, rfl⟩ | ⟨y, _, hc, rfl⟩
  · exact hP y
  · rw [hxid] at hc
    simp at hc

/-- After `revokeAllRefreshTokens`, every row of that admin is revoked. -/
lemma revokeAll_mem_prop (db : AdminDb) (aid : Nat) :
    ∀ r ∈ (revokeAllRefreshTokens db aid).refreshTokens,
      r.adminId = aid → r.revoked = true := by
  intro r hr hrid
  rcases mem_selectiveMap db.refreshTokens (fun z => z.adminId == aid)
      (fun t => { t with revoked := true }) r hr with
    ⟨y, _, _, rfl⟩ | ⟨y, _, hc, rfl⟩
  · rfl
  · rw [hrid] at hc
    simp at hc

/-- After revoking every token of `aid`, the store lookup for a hash owned by
`aid` finds nothing. -/
lemma verifyRefreshToken_revokeAll_none (db : AdminDb) (aid : Nat)
    (h : String) (now : Nat)
    (howner : ∀ r ∈ db.refreshTokens, r.tokenHash = h → r.adminId = aid) :
    verifyRefreshToken (revokeAllRefreshTokens db aid) h now = none := by
  rw [verifyRefreshToken, List.find?_eq_none]
  intro t ht
  rcases mem_selectiveMap db.refreshTokens (fun z => z.adminId == aid)
      (fun t => { t with revoked := true }) t ht with
    ⟨y, _, _, rfl⟩ | ⟨y, hy, hc, rfl⟩
  · simp
  · intro hp
    simp only [Bool.and_eq_true, beq_iff_eq, Bool.not_eq_true',
      decide_eq_true_eq] at hp
    have := howner _ hy hp.1.1
    rw [this] at hc
    simp at hc

/-! Single-step characterizations of `authenticate`. -/

/-- Unknown username: audit with null admin id, then `Invalid credentials`. -/
lemma authenticate_unknown (db : AdminDb) (username password : String)
    (ip ua : Option String) (now : Nat)
    (hfind : findAdminByUsername db (normalizeUsername username) = none) :
    authenticate db username password ip ua now =
      (logAudit db none "login_failed" ip ua false (some "User not found"),
       .error "Invalid credentials") := by
  simp only [authenticate, hfind]

/-- Account locked and the lock has not elapsed: `Account locked` failure even
before any password comparison. -/
lemma authenticate_locked (db : AdminDb) (a : Admin)
    (username password : String) (ip ua : Option String) (now lockUntil : Nat)
    (hfind : findAdminByUsername db (normalizeUsername username) = some a)
    (hlock : a.lockedUntil = some lockUntil) (hnow : now < lockUntil) :
    authenticate db username password ip ua now =
      (logAudit db (some a.id) "login_failed" ip ua false
         (some "Account locked"),
       .error (accountLockedMsg ((lockUntil - now + 59999) / 60000))) := by
  simp only [authenticate, hfind, hlock, if_pos hnow]

/-- Wrong password while strictly below the lockout threshold. -/
lemma authenticate_wrong_below (db : AdminDb) (a : Admin)
    (username password : String) (ip ua : Option String) (now : Nat)
    (hfind : findAdminByUsername db (normalizeUsername username) = some a)
    (hlock : a.lockedUntil = none) (hactive : a.isActive = true)
    (hwrong : bcryptCompare password a.password = false)
    (hbelow : a.loginAttempts + 1 < MAX_LOGIN_ATTEMPTS) :
    authenticate db username password ip ua now =
      (logAudit
         (updateAdmin db a.id fun x =>
           { x with loginAttempts := a.loginAttempts + 1,
                    lockedUntil := none })
         (some a.id) "login_failed" ip ua false
         (some (attemptDetails (a.loginAttempts + 1))),
       .error "Invalid credentials") := by
  simp only [authenticate, hfind, hlock, authenticateUnlocked, hactive,
    hwrong, Bool.not_true, Bool.not_false, Bool.false_eq_true, if_false,
    if_true, if_neg (not_le.mpr hbelow)]

/-- Wrong password reaching the lockout threshold: lock the row and fail. -/
lemma authenticate_wrong_lock (db : AdminDb) (a : Admin)
    (username password : String) (ip ua : Option String) (now : Nat)
    (hfind : findAdminByUsername db (normalizeUsername username) = some a)
    (hlock : a.lockedUntil = none) (hactive : a.isActive = true)
    (hwrong : bcryptCompare password a.password = false)
    (hatmax : MAX_LOGIN_ATTEMPTS ≤ a.loginAttempts + 1) :
    authenticate db username password ip ua now =
      (logAudit
         (updateAdmin db a.id fun x =>
           { x with loginAttempts := a.loginAttempts + 1,
                    lockedUntil := some (now + LOCKOUT_DURATION) })
         (some a.id) "login_failed" ip ua false
         (some (attemptDetails (a.loginAttempts + 1))),
       .error "Too many failed attempts. Account locked for 15 minutes.") := by
  simp only [authenticate, hfind, hlock, authenticateUnlocked, hactive,
    hwrong, Bool.not_true, Bool.not_false, Bool.false_eq_true, if_false,
    if_true, if_pos hatmax]

/-- Correct password on an unlocked row: reset counters, stamp last login,
audit success, return the sanitized (pre-update) record. -/
lemma authenticate_success_nolock (db : AdminDb) (a : Admin)
    (username password : String) (ip ua : Option String) (now : Nat)
    (hfind : findAdminByUsername db (normalizeUsername username) = some a)
    (hlock : a.lockedUntil = none) (hactive : a.isActive = true)
    (hright : bcryptCompare password a.password = true) :
    authenticate db username password ip ua now =
      (logAudit
         (updateAdmin db a.id fun x =>
           { x with loginAttempts := 0, lockedUntil := none,
                    lastLogin := some now })
         (some a.id) "login_success" ip ua true none,
       .ok (sanitizeUser a)) := by
  simp only [authenticate, hfind, hlock, authenticateUnlocked, hactive,
    hright, Bool.not_true, Bool.not_false, Bool.false_eq_true, if_false,
    if_true]

/-- Correct password on a row whose lock has expired: the expired-lock reset
runs first, then the success branch. -/
lemma authenticate_success_expired (db : AdminDb) (a : Admin)
    (username password : String) (ip ua : Option String) (now lockUntil : Nat)
    (hfind : findAdminByUsername db (normalizeUsername username) = some a)
    (hlock : a.lockedUntil = some lockUntil) (hnow : lockUntil ≤ now)
    (hactive : a.isActive = true)
    (hright : bcryptCompare password a.password = true) :
    authenticate db username password ip ua now =
      (logAudit
         (updateAdmin
           (updateAdmin db a.id fun x =>
             { x with loginAttempts := 0, lockedUntil := none })
           a.id fun x =>
             { x with loginAttempts := 0, lockedUntil := none,
                      lastLogin := some now })
         (some a.id) "login_success" ip ua true none,
       .ok (sanitizeUser a)) := by
  simp only [authenticate, hfind, hlock, if_neg (not_lt.mpr hnow),
    authenticateUnlocked, hactive, hright, Bool.not_true, Bool.not_false,
    Bool.false_eq_true, if_false, if_true]

/-! Claim theorems. -/

/-- Claim C3: authenticating with an unknown username produces exactly the
same externally visible error message (and hence the same 401 response, since
the login route maps every authenticate error to
`loginFailureResponse error.message`) as authenticating with a known username
and a wrong password while the attempt counter stays below the lockout
threshold: both fail with `Invalid credentials`. -/
theorem claim3_unknown_vs_wrong_indistinguishable
    (db1 db2 : AdminDb) (u1 p1 u2 p2 : String) (a : Admin)
    (ip1 ua1 ip2 ua2 : Option String) (now1 now2 : Nat)
    (hunknown : findAdminByUsername db1 (normalizeUsername u1) = none)
    (hfound : findAdminByUsername db2 (normalizeUsername u2) = some a)
    (hlock : a.lockedUntil = none) (hactive : a.isActive = true)
    (hwrong : bcryptCompare p2 a.password = false)
    (hbelow : a.loginAttempts + 1 < MAX_LOGIN_ATTEMPTS) :
    (authenticate db1 u1 p1 ip1 ua1 now1).2 = .error "Invalid credentials"
    ∧ (authenticate db2 u2 p2 ip2 ua2 now2).2 = .error "Invalid credentials"
    ∧ (∀ m1 m2, (authenticate db1 u1 p1 ip1 ua1 now1).2 = .error m1 →
        (authenticate db2 u2 p2 ip2 ua2 now2).2 = .error m2 →
        loginFailureResponse m1 = loginFailureResponse m2) := by
  have h1 := authenticate_unknown db1 u1 p1 ip1 ua1 now1 hunknown
  have h2 := authenticate_wrong_below db2 a u2 p2 ip2 ua2 now2 hfound hlock
    hactive hwrong hbelow
  refine ⟨by rw [h1], by rw [h2], ?_⟩
  intro m1 m2 hm1 hm2
  rw [h1] at hm1
  rw [h2] at hm2
  simp only [Except.error.injEq] at hm1 hm2
  rw [← hm1, ← hm2]

/-- Witness for C3 at concrete inputs: unknown user "nobody" versus the seeded
admin with a wrong password. -/
theorem claim3_witness :
    (authenticate dbSeed "nobody" "whatever1" none none 0).2 =
      .error "Invalid credentials"
    ∧ (authenticate dbSeed "admin" "wrongpass" none none 0).2 =
      .error "Invalid credentials" := by
  have h := claim3_unknown_vs_wrong_indistinguishable dbSeed dbSeed "nobody"
    "whatever1" "admin" "wrongpass" adminSeed none none none none 0 0
    (by decide) (by decide) rfl rfl (by decide) (by decide)
  exact ⟨h.1, h.2.1⟩

/-- Claim C5: a successful authentication (admin found, lock absent or
elapsed, account active, password matches) resets `failedAttemptCount` to 0,
clears `lockedUntil`, sets `lastLoginAt` to the current time on the stored
row, writes a success audit entry, and returns the admin record with the
password hash stripped (`sanitizeUser` keeps every field except the hash). -/
theorem claim5_success_resets_and_sanitizes
    (db : AdminDb) (a : Admin) (username password : String)
    (ip ua : Option String) (now : Nat)
    (hfind : findAdminByUsername db (normalizeUsername username) = some a)
    (hlock : ∀ t, a.lockedUntil = some t → t ≤ now)
    (hactive : a.isActive = true)
    (hright : bcryptCompare password a.password = true) :
    (authenticate db username password ip ua now).2 = .ok (sanitizeUser a)
    ∧ (∀ x ∈ (authenticate db username password ip ua now).1.admins,
        x.id = a.id →
          x.loginAttempts = 0 ∧ x.lockedUntil = none ∧ x.lastLogin = some now)
    ∧ (authenticate db username password ip ua now).1.auditLog =
        db.auditLog ++ [⟨some a.id, "login_success", ip, ua, true, none⟩] := by
  rcases hl : a.lockedUntil with _ | t
  · have hstep := authenticate_success_nolock db a username password ip ua now
      hfind hl hactive hright
    rw [hstep]
    refine ⟨rfl, ?_, rfl⟩
    exact updateAdmin_mem_prop db a.id _
      (fun x => x.loginAttempts = 0 ∧ x.lockedUntil = none ∧
        x.lastLogin = some now)
      (fun x => ⟨rfl, rfl, rfl⟩)
  · have hstep := authenticate_success_expired db a username password ip ua
      now t hfind hl (hlock t hl) hactive hright
    rw [hstep]
    refine ⟨rfl, ?_, rfl⟩
    exact updateAdmin_mem_prop _ a.id _
      (fun x => x.loginAttempts = 0 ∧ x.lockedUntil = none ∧
        x.lastLogin = some now)
      (fun x => ⟨rfl, rfl, rfl⟩)

/-- Witness for C5: the seeded admin logs in with the correct password. -/
theorem claim5_witness :
    (authenticate dbSeed "admin" "admin123" none none 42).2 =
      .ok (sanitizeUser adminSeed)
    ∧ (authenticate dbSeed "admin" "admin123" none none 42).1.auditLog =
        [⟨some 1, "login_success", none, none, true, none⟩] := by
  have h := claim5_success_resets_and_sanitizes dbSeed adminSeed "admin"
    "admin123" none none 42 (by decide) (by intro t ht; cases ht) rfl
    (by decide)
  exact ⟨h.1, h.2.2⟩

/-- Counterexample to C6 as stated: the new-password-too-short branch of
`changePassword` terminates with a failure yet writes nothing at all — in
particular no audit-log entry (the returned database is unchanged). -/
theorem claim6_counterexample :
    (changePassword dbSeed 1 "admin123" "short").2 =
      .error "New password must be at least 8 characters"
    ∧ (changePassword dbSeed 1 "admin123" "short").1 = dbSeed := by
  exact ⟨rfl, rfl⟩

/-- Claim C6 (amended): every decision branch of `authenticate` writes exactly
one audit-log entry, and in `changePassword` the old-password-mismatch and
success branches write one — but the new-password-too-short and
admin-not-found branches of `changePassword` fail without any audit write. -/
theorem claim6_amended_audit_coverage :
    (∀ db u p ip ua now,
      ((authenticate db u p ip ua now).1).auditLog.length =
        db.auditLog.length + 1)
    ∧ (∀ db aid oldPw newPw a,
        db.admins.find? (fun x => x.id == aid) = some a → 8 ≤ newPw.length →
        ((changePassword db aid oldPw newPw).1).auditLog.length =
          db.auditLog.length + 1)
    ∧ (∀ db aid oldPw newPw, newPw.length < 8 →
        (changePassword db aid oldPw newPw).1 = db)
    ∧ (∀ db aid oldPw newPw, 8 ≤ newPw.length →
        db.admins.find? (fun x => x.id == aid) = none →
        (changePassword db aid oldPw newPw).1 = db) := by
  refine ⟨?_, ?_, ?_, ?_⟩
  · intro db u p ip ua now
    rcases hfind : findAdminByUsername db (normalizeUsername u) with _ | a
    · rw [authenticate_unknown db u p ip ua now hfind]
      simp [logAudit, updateAdmin]
    · rcases hl : a.lockedUntil with _ | t
      · rcases hact : a.isActive with _ | _
        · simp only [authenticate, hfind, hl, authenticateUnlocked, hact]
          simp [logAudit, updateAdmin]
        · rcases hpw : bcryptCompare p a.password with _ | _
          · by_cases hmax : MAX_LOGIN_ATTEMPTS ≤ a.loginAttempts + 1
            · rw [authenticate_wrong_lock db a u p ip ua now hfind hl hact
                hpw hmax]
              simp [logAudit, updateAdmin]
            · rw [authenticate_wrong_below db a u p ip ua now hfind hl hact
                hpw (not_le.mp hmax)]
              simp [logAudit, updateAdmin]
          · rw [authenticate_success_nolock db a u p ip ua now hfind hl hact
              hpw]
            simp [logAudit, updateAdmin]
      · by_cases hnow : now < t
        · rw [authenticate_locked db a u p ip ua now t hfind hl hnow]
          simp [logAudit, updateAdmin]
        · rcases hact : a.isActive with _ | _
          · simp only [authenticate, hfind, hl, if_neg hnow,
              authenticateUnlocked, hact]
            simp [logAudit, updateAdmin]
          · rcases hpw : bcryptCompare p a.password with _ | _
            · simp only [authenticate, hfind, hl, if_neg hnow,
                authenticateUnlocked, hact, hpw, Bool.not_true,
                Bool.not_false, Bool.false_eq_true, if_false, if_true]
              by_cases hmax : MAX_LOGIN_ATTEMPTS ≤ a.loginAttempts + 1
              · rw [if_pos hmax]
                simp [logAudit, updateAdmin]
              · rw [if_neg hmax]
                simp [logAudit, updateAdmin]
            · rw [authenticate_success_expired db a u p ip ua now t hfind hl
                (not_lt.mp hnow) hact hpw]
              simp [logAudit, updateAdmin]
  · intro db aid oldPw newPw a hfind hlen
    simp only [changePassword, if_neg (not_lt.mpr hlen), hfind]
    rcases hpw : bcryptCompare oldPw a.password with _ | _
    · simp [hpw, logAudit]
    · simp [hpw, logAudit, revokeAllRefreshTokens, updateAdmin]
  · intro db aid oldPw newPw hlen
    simp [changePassword, hlen]
  · intro db aid oldPw newPw hlen hnone
    simp [changePassword, if_neg (not_lt.mpr hlen), hnone]

/-- Witness for C6 (amended) at concrete inputs. -/
theorem claim6_amended_witness :
    ((authenticate dbSeed "admin" "badpw123" none none 0).1).auditLog.length =
      dbSeed.auditLog.length + 1
    ∧ ((changePassword dbSeed 1 "admin123" "Newpass123").1).auditLog.length =
        dbSeed.auditLog.length + 1
    ∧ (changePassword dbSeed 1 "admin123" "short").1 = dbSeed := by
  refine ⟨claim6_amended_audit_coverage.1 dbSeed "admin" "badpw123" none none 0,
    claim6_amended_audit_coverage.2.1 dbSeed 1 "admin123" "Newpass123"
      adminSeed (by decide) (by decide),
    claim6_amended_audit_coverage.2.2.1 dbSeed 1 "admin123" "short"
      (by decide)⟩

/-- Counterexample to C7 as stated: the two `changePassword` failure modes are
distinguishable to the caller — an old-password mismatch fails with the
message `Invalid old password`, naming exactly which supplied field was wrong,
while a bad new password fails with a different message naming the new
password. -/
theorem claim7_counterexample :
    (changePassword dbSeed 1 "wrong-old" "Newpass123").2 =
      .error "Invalid old password"
    ∧ (changePassword dbSeed 1 "admin123" "short").2 =
        .error "New password must be at least 8 characters"
    ∧ ("Invalid old password" : String) ≠
        "New password must be at least 8 characters" := by
  exact ⟨rfl, rfl, by decide⟩

/-- Claim C7 (amended): on an old-password mismatch `changePassword` writes a
failure audit entry and fails without modifying the admin or token tables, but
the error surfaced to the caller is `Invalid old password`, which does reveal
that the old password (not the new one) was the wrong field. -/
theorem claim7_amended_mismatch_audited
    (db : AdminDb) (aid : Nat) (a : Admin) (oldPw newPw : String)
    (hfind : db.admins.find? (fun x => x.id == aid) = some a)
    (hlen : 8 ≤ newPw.length)
    (hwrong : bcryptCompare oldPw a.password = false) :
    (changePassword db aid oldPw newPw).2 = .error "Invalid old password"
    ∧ (changePassword db aid oldPw newPw).1.auditLog =
        db.auditLog ++ [⟨some aid, "password_change_failed", none, none,
                         false, some "Invalid old password"⟩]
    ∧ (changePassword db aid oldPw newPw).1.admins = db.admins
    ∧ (changePassword db aid oldPw newPw).1.refreshTokens =
        db.refreshTokens := by
  simp [changePassword, if_neg (not_lt.mpr hlen), hfind, hwrong, logAudit]

/-- Witness for C7 (amended) at a concrete input. -/
theorem claim7_amended_witness :
    (changePassword dbSeed 1 "not-the-password" "Newpass123").2 =
      .error "Invalid old password"
    ∧ (changePassword dbSeed 1 "not-the-password" "Newpass123").1.auditLog =
        [⟨some 1, "password_change_failed", none, none, false,
          some "Invalid old password"⟩] := by
  have h := claim7_amended_mismatch_audited dbSeed 1 adminSeed
    "not-the-password" "Newpass123" (by decide) (by decide) (by decide)
  exact ⟨h.1, h.2.1⟩

/-- Claim C8: `revokeRefreshToken` and `revokeAllRefreshTokens` are
idempotent — applying either twice leaves the database exactly as applying it
once — and each sets `revoked = true` precisely on the matching token-store
rows (by token hash, resp. admin id) while leaving every other row, and the
other two tables, unchanged. -/
theorem claim8_revocation_idempotent_targeted :
    (∀ db h,
      revokeRefreshToken (revokeRefreshToken db h) h = revokeRefreshToken db h)
    ∧ (∀ db aid,
        revokeAllRefreshTokens (revokeAllRefreshTokens db aid) aid =
          revokeAllRefreshTokens db aid)
    ∧ (∀ db h, (revokeRefreshToken db h).admins = db.admins
        ∧ (revokeRefreshToken db h).auditLog = db.auditLog
        ∧ (revokeRefreshToken db h).refreshTokens.length =
            db.refreshTokens.length)
    ∧ (∀ db aid, (revokeAllRefreshTokens db aid).admins = db.admins
        ∧ (revokeAllRefreshTokens db aid).auditLog = db.auditLog
        ∧ (revokeAllRefreshTokens db aid).refreshTokens.length =
            db.refreshTokens.length)
    ∧ (∀ db h i, ∀ hi : i < db.refreshTokens.length,
        ∀ hi2 : i < (revokeRefreshToken db h).refreshTokens.length,
        ((db.refreshTokens.get ⟨i, hi⟩).tokenHash = h →
          (revokeRefreshToken db h).refreshTokens.get ⟨i, hi2⟩ =
            { db.refreshTokens.get ⟨i, hi⟩ with revoked := true })
        ∧ ((db.refreshTokens.get ⟨i, hi⟩).tokenHash ≠ h →
          (revokeRefreshToken db h).refreshTokens.get ⟨i, hi2⟩ =
            db.refreshTokens.get ⟨i, hi⟩))
    ∧ (∀ db aid i, ∀ hi : i < db.refreshTokens.length,
        ∀ hi2 : i < (revokeAllRefreshTokens db aid).refreshTokens.length,
        ((db.refreshTokens.get ⟨i, hi⟩).adminId = aid →
          (revokeAllRefreshTokens db aid).refreshTokens.get ⟨i, hi2⟩ =
            { db.refreshTokens.get ⟨i, hi⟩ with revoked := true })
        ∧ ((db.refreshTokens.get ⟨i, hi⟩).adminId ≠ aid →
          (revokeAllRefreshTokens db aid).refreshTokens.get ⟨i, hi2⟩ =
            db.refreshTokens.get ⟨i, hi⟩)) := by
  refine ⟨?_, ?_, ?_, ?_, ?_, ?_⟩
  · intro db h
    simp only [revokeRefreshToken, List.map_map]
    congr 1
    apply List.map_congr_left
    intro t _
    by_cases ht : (t.tokenHash == h) = true <;> simp [Function.comp, ht]
  · intro db aid
    simp only [revokeAllRefreshTokens, List.map_map]
    congr 1
    apply List.map_congr_left
    intro t _
    by_cases ht : (t.adminId == aid) = true <;> simp [Function.comp, ht]
  · intro db h
    exact ⟨rfl, rfl, by simp [revokeRefreshToken]⟩
  · intro db aid
    exact ⟨rfl, rfl, by simp [revokeAllRefreshTokens]⟩
  · intro db h i hi hi2
    constructor
    · intro hh
      simp only [revokeRefreshToken, List.get_eq_getElem, List.getElem_map]
      rw [if_pos (by simpa using hh)]
    · intro hh
      simp only [revokeRefreshToken, List.get_eq_getElem, List.getElem_map]
      rw [if_neg (by simpa using hh)]
  · intro db aid i hi hi2
    constructor
    · intro hh
      simp only [revokeAllRefreshTokens, List.get_eq_getElem, List.getElem_map]
      rw [if_pos (by simpa using hh)]
    · intro hh
      simp only [revokeAllRefreshTokens, List.get_eq_getElem, List.getElem_map]
      rw [if_neg (by simpa using hh)]

/-- Witness for C8 at a concrete store: revoking the seeded token twice equals
revoking it once, and the row ends up revoked. -/
theorem claim8_witness :
    revokeRefreshToken (revokeRefreshToken dbTok (sha256Hex jwtSeed))
        (sha256Hex jwtSeed) =
      revokeRefreshToken dbTok (sha256Hex jwtSeed)
    ∧ (revokeRefreshToken dbTok (sha256Hex jwtSeed)).refreshTokens.get
        ⟨0, by decide⟩ = { tokenRowSeed with revoked := true } := by
  refine ⟨claim8_revocation_idempotent_targeted.1 dbTok (sha256Hex jwtSeed), ?_⟩
  exact (claim8_revocation_idempotent_targeted.2.2.2.2.1 dbTok
    (sha256Hex jwtSeed) 0 (by decide) (by decide)).1 rfl

/-- Claim C9 (spec-modelled: `express-rate-limit` is an external dependency,
modelled from its configuration in middleware/auth.js and the spec's window
description): within one window the login rate limiter counts only failed
requests against the 5-per-address budget — a successful login leaves the hit
count unchanged, a failed one increments it, a request over the budget is
rejected — so any number of successful logins from one address in the window
is never rejected with `RATE_LIMIT_EXCEEDED`. -/
theorem claim9_rate_limiter_skips_successful :
    (∀ st : RateLimiterState, st.hits + 1 ≤ loginRateLimiterMax →
      loginRateLimiterStep st true = (st, LoginOutcome.success))
    ∧ (∀ st : RateLimiterState, st.hits + 1 ≤ loginRateLimiterMax →
        loginRateLimiterStep st false = (⟨st.hits + 1⟩, LoginOutcome.failure))
    ∧ (∀ st : RateLimiterState, loginRateLimiterMax < st.hits + 1 → ∀ b,
        loginRateLimiterStep st b = (⟨st.hits + 1⟩, LoginOutcome.rateLimited))
    ∧ (∀ n, runLoginRequests ⟨0⟩ (List.replicate n true) =
        (⟨0⟩, List.replicate n LoginOutcome.success)) := by
  refine ⟨?_, ?_, ?_, ?_⟩
  · intro st hst
    simp [loginRateLimiterStep, if_neg (not_lt.mpr hst)]
  · intro st hst
    simp [loginRateLimiterStep, if_neg (not_lt.mpr hst)]
  · intro st hst b
    simp [loginRateLimiterStep, if_pos hst]
  · intro n
    induction n with
    | zero => rfl
    | succ k ih =>
        have hstep : loginRateLimiterStep ⟨0⟩ true = (⟨0⟩, LoginOutcome.success) := rfl
        simp only [List.replicate_succ, runLoginRequests, hstep, ih]

/-- Witness for C9: six straight successful logins in one fresh window are all
admitted, even though six failed ones would exceed the budget of five. -/
theorem claim9_witness :
    runLoginRequests ⟨0⟩ (List.replicate 6 true) =
      (⟨0⟩, List.replicate 6 LoginOutcome.success)
    ∧ loginRateLimiterStep ⟨0⟩ true = (⟨0⟩, LoginOutcome.success) :=
  ⟨claim9_rate_limiter_skips_successful.2.2.2 6,
   claim9_rate_limiter_skips_successful.1 ⟨0⟩ (by decide)⟩

/-- Claim C2: a successful `changePassword` (old password verified, new
password long enough) replaces the stored hash and revokes every refresh token
owned by that admin, so a subsequent `POST /api/auth/refresh` with any token
issued to that admin before the change fails with `TOKEN_REVOKED`. The
hypothesis `howner` says the hashed token belongs to that admin's store rows
(hash collisions between different admins are excluded). -/
theorem claim2_change_password_revokes_tokens
    (db : AdminDb) (aid : Nat) (a : Admin) (oldPw newPw secret : String)
    (jwt : RefreshJwt) (now : Nat)
    (hfind : db.admins.find? (fun x => x.id == aid) = some a)
    (hold : bcryptCompare oldPw a.password = true)
    (hlen : 8 ≤ newPw.length)
    (hsig : jwt.signedWith = secret) (htype : jwt.payload.type = "refresh")
    (howner : ∀ r ∈ db.refreshTokens, r.tokenHash = sha256Hex jwt →
      r.adminId = aid) :
    (changePassword db aid oldPw newPw).2 = .ok true
    ∧ (∀ x ∈ (changePassword db aid oldPw newPw).1.admins, x.id = aid →
        x.password = bcryptHash newPw)
    ∧ (∀ r ∈ (changePassword db aid oldPw newPw).1.refreshTokens,
        r.adminId = aid → r.revoked = true)
    ∧ refreshRoute (changePassword db aid oldPw newPw).1 (some jwt) none
        secret now =
      ((changePassword db aid oldPw newPw).1,
       .error ⟨403, "Refresh token expired or revoked",
               some "TOKEN_REVOKED"⟩) := by
  have hstep : changePassword db aid oldPw newPw =
      (logAudit
        (revokeAllRefreshTokens
          (updateAdmin db aid fun x => { x with password := bcryptHash newPw })
          aid)
        (some aid) "password_changed" none none true none,
       .ok true) := by
    simp [changePassword, if_neg (not_lt.mpr hlen), hfind, hold]
  rw [hstep]
  refine ⟨rfl, ?_, ?_, ?_⟩
  · exact updateAdmin_mem_prop db aid _ (fun x => x.password = bcryptHash newPw)
      (fun x => rfl)
  · exact revokeAll_mem_prop
      (updateAdmin db aid fun x => { x with password := bcryptHash newPw }) aid
  · have hver : verifyRefreshToken
        (logAudit
          (revokeAllRefreshTokens
            (updateAdmin db aid fun x =>
              { x with password := bcryptHash newPw }) aid)
          (some aid) "password_changed" none none true none)
        (sha256Hex jwt) now = none := by
      exact verifyRefreshToken_revokeAll_none
        (updateAdmin db aid fun x => { x with password := bcryptHash newPw })
        aid (sha256Hex jwt) now howner
    simp only [refreshRoute, Option.orElse, mwVerifyRefreshToken,
      jwtVerifyRefresh, hsig, beq_self_eq_true, if_true, htype, hver]
    rfl

/-- Witness for C2: the seeded admin changes password; the stored token row is
revoked and the refresh request is rejected with `TOKEN_REVOKED`. -/
theorem claim2_witness :
    (changePassword dbTok 1 "admin123" "Newpass123").2 = .ok true
    ∧ refreshRoute (changePassword dbTok 1 "admin123" "Newpass123").1
        (some jwtSeed) none "server-secret" 0 =
      ((changePassword dbTok 1 "admin123" "Newpass123").1,
       .error ⟨403, "Refresh token expired or revoked",
               some "TOKEN_REVOKED"⟩) := by
  have h := claim2_change_password_revokes_tokens dbTok 1 adminSeed "admin123"
    "Newpass123" "server-secret" jwtSeed 0 (by decide) (by decide) (by decide)
    rfl rfl (by intro r hr hh; simp [dbTok] at hr; rw [hr]; rfl)
  exact ⟨h.1, h.2.2.2⟩

/-- Claim C4: the refresh route verifies the refresh token's signature and
`type` claim (failure of either aborts the request without touching the
store), hashes the token and looks it up: when every matching store row is
revoked or expired (in particular when no row matches) it fails with
`TOKEN_REVOKED`; with a live row but a missing or inactive owning admin it
fails with `ACCOUNT_DISABLED`; otherwise it returns a freshly issued access
token — and in every case the database, in particular the refresh-token
store, is returned unchanged (the refresh token is not rotated). -/
theorem claim4_refresh_route_behaviour
    (db : AdminDb) (jwt : RefreshJwt) (secret : String) (now : Nat) :
    (jwt.signedWith ≠ secret →
      refreshRoute db (some jwt) none secret now =
        (db, .error ⟨500, "Failed to refresh token", none⟩))
    ∧ (jwt.payload.type ≠ "refresh" →
        refreshRoute db (some jwt) none secret now =
          (db, .error ⟨500, "Failed to refresh token", none⟩))
    ∧ ((∀ r ∈ db.refreshTokens, r.tokenHash = sha256Hex jwt →
          r.revoked = true ∨ r.expiresAt ≤ now) →
        verifyRefreshToken db (sha256Hex jwt) now = none)
    ∧ (jwt.signedWith = secret → jwt.payload.type = "refresh" →
        (verifyRefreshToken db (sha256Hex jwt) now = none →
          refreshRoute db (some jwt) none secret now =
            (db, .error ⟨403, "Refresh token expired or revoked",
                         some "TOKEN_REVOKED"⟩))
        ∧ (∀ row, verifyRefreshToken db (sha256Hex jwt) now = some row →
            (getAdminById db jwt.payload.id = none →
              refreshRoute db (some jwt) none secret now =
                (db, .error ⟨403, "Account not found or disabled",
                             some "ACCOUNT_DISABLED"⟩))
            ∧ (∀ adminRow, getAdminById db jwt.payload.id = some adminRow →
                (adminRow.isActive = false →
                  refreshRoute db (some jwt) none secret now =
                    (db, .error ⟨403, "Account not found or disabled",
                                 some "ACCOUNT_DISABLED"⟩))
                ∧ (adminRow.isActive = true →
                  refreshRoute db (some jwt) none secret now =
                    (db, .ok (generateAccessToken adminRow.id
                        adminRow.username adminRow.role secret)))))) := by
  refine ⟨?_, ?_, ?_, ?_⟩
  · intro hsig
    simp [refreshRoute, Option.orElse, mwVerifyRefreshToken, jwtVerifyRefresh,
      beq_iff_eq, hsig]
  · intro htype
    by_cases hsig : jwt.signedWith = secret
    · simp [refreshRoute, Option.orElse, mwVerifyRefreshToken,
        jwtVerifyRefresh, beq_iff_eq, hsig, htype]
    · simp [refreshRoute, Option.orElse, mwVerifyRefreshToken,
        jwtVerifyRefresh, beq_iff_eq, hsig]
  · intro hrows
    rw [verifyRefreshToken, List.find?_eq_none]
    intro t ht hp
    simp only [Bool.and_eq_true, beq_iff_eq, Bool.not_eq_true',
      decide_eq_true_eq] at hp
    rcases hrows t ht hp.1.1 with hrev | hexp
    · rw [hp.1.2] at hrev
      exact Bool.false_ne_true hrev
    · exact absurd hp.2 (not_lt.mpr hexp)
  · intro hsig htype
    constructor
    · intro hver
      simp [refreshRoute, Option.orElse, mwVerifyRefreshToken,
        jwtVerifyRefresh, beq_iff_eq, hsig, htype, hver]
    · intro row hrow
      constructor
      · intro hnone
        simp [refreshRoute, Option.orElse, mwVerifyRefreshToken,
          jwtVerifyRefresh, beq_iff_eq, hsig, htype, hrow, hnone]
      · intro adminRow hadmin
        constructor
        · intro hinactive
          simp [refreshRoute, Option.orElse, mwVerifyRefreshToken,
            jwtVerifyRefresh, beq_iff_eq, hsig, htype, hrow, hadmin,
            hinactive]
        · intro hactive
          simp [refreshRoute, Option.orElse, mwVerifyRefreshToken,
            jwtVerifyRefresh, beq_iff_eq, hsig, htype, hrow, hadmin, hactive]

/-- Witness for C4: the seeded live token refreshes successfully, returning a
fresh access token and leaving the database untouched. -/
theorem claim4_witness :
    refreshRoute dbTok (some jwtSeed) none "server-secret" 0 =
      (dbTok, .ok (generateAccessToken 1 "admin" "admin" "server-secret")) := by
  have h := ((((claim4_refresh_route_behaviour dbTok jwtSeed "server-secret"
    0).2.2.2 rfl rfl).2 tokenRowSeed (by decide)).2
    ⟨1, "admin", none, "admin", 0, none, true⟩ (by decide)).2 rfl
  exact h

/-- Claim C10: `deactivateAdmin` both clears `is_active` and revokes every
refresh token of that admin, so a refresh attempt by a deactivated admin
already fails at the token-store lookup with `TOKEN_REVOKED` (never reaching
the `is_active` check); `activateAdmin` sets `is_active` back but leaves the
token store — including the revoked flags — exactly as it was. -/
theorem claim10_deactivate_revokes_activate_does_not
    (db : AdminDb) (aid : Nat) (jwt : RefreshJwt) (secret : String) (now : Nat)
    (hsig : jwt.signedWith = secret) (htype : jwt.payload.type = "refresh")
    (howner : ∀ r ∈ db.refreshTokens, r.tokenHash = sha256Hex jwt →
      r.adminId = aid) :
    (∀ x ∈ (deactivateAdmin db aid).admins, x.id = aid → x.isActive = false)
    ∧ (∀ r ∈ (deactivateAdmin db aid).refreshTokens, r.adminId = aid →
        r.revoked = true)
    ∧ refreshRoute (deactivateAdmin db aid) (some jwt) none secret now =
        (deactivateAdmin db aid,
         .error ⟨403, "Refresh token expired or revoked",
                 some "TOKEN_REVOKED"⟩)
    ∧ (∀ x ∈ (activateAdmin db aid).admins, x.id = aid → x.isActive = true)
    ∧ (activateAdmin db aid).refreshTokens = db.refreshTokens := by
  refine ⟨?_, ?_, ?_, ?_, rfl⟩
  · exact updateAdmin_mem_prop db aid _ (fun x => x.isActive = false)
      (fun x => rfl)
  · exact revokeAll_mem_prop
      (updateAdmin db aid fun a => { a with isActive := false }) aid
  · have hver : verifyRefreshToken (deactivateAdmin db aid)
        (sha256Hex jwt) now = none :=
      verifyRefreshToken_revokeAll_none
        (updateAdmin db aid fun a => { a with isActive := false })
        aid (sha256Hex jwt) now howner
    simp [refreshRoute, Option.orElse, mwVerifyRefreshToken,
      jwtVerifyRefresh, beq_iff_eq, hsig, htype, hver]
  · exact updateAdmin_mem_prop db aid _ (fun x => x.isActive = true)
      (fun x => rfl)

/-- Witness for C10: deactivating the seeded admin revokes its stored token
and the subsequent refresh is rejected at the token-store lookup. -/
theorem claim10_witness :
    refreshRoute (deactivateAdmin dbTok 1) (some jwtSeed) none
        "server-secret" 0 =
      (deactivateAdmin dbTok 1,
       .error ⟨403, "Refresh token expired or revoked",
               some "TOKEN_REVOKED"⟩)
    ∧ (activateAdmin dbTok 1).refreshTokens = dbTok.refreshTokens := by
  have h := claim10_deactivate_revokes_activate_does_not dbTok 1 jwtSeed
    "server-secret" 0 rfl rfl
    (by intro r hr hh; simp [dbTok] at hr; rw [hr]; rfl)
  exact ⟨h.2.2.1, h.2.2.2.2⟩

/-- One failed authentication strictly below the threshold: the stored row
becomes `failedOnce a`, the lookup and the equal-ids side condition carry
over, and the call fails with `Invalid credentials`. -/
lemma auth_fail_step (db : AdminDb) (a : Admin) (username wrongPw : String)
    (ip ua : Option String) (t0 : Nat)
    (hfind : findAdminByUsername db (normalizeUsername username) = some a)
    (hid : ∀ x ∈ db.admins, x.id = a.id → x.username = a.username)
    (hlock : a.lockedUntil = none) (hactive : a.isActive = true)
    (hwrong : bcryptCompare wrongPw a.password = false)
    (hbelow : a.loginAttempts + 1 < MAX_LOGIN_ATTEMPTS) :
    findAdminByUsername (authenticate db username wrongPw ip ua t0).1
        (normalizeUsername username) = some (failedOnce a)
    ∧ (∀ x ∈ (authenticate db username wrongPw ip ua t0).1.admins,
        x.id = a.id → x.username = a.username)
    ∧ (authenticate db username wrongPw ip ua t0).2 =
        .error "Invalid credentials" := by
  have hstep := authenticate_wrong_below db a username wrongPw ip ua t0 hfind
    hlock hactive hwrong hbelow
  rw [hstep]
  refine ⟨?_, ?_, rfl⟩
  · exact find?_username_updateAdmin db.admins a _ _ (fun x => ⟨rfl, rfl⟩)
      hid hfind
  · exact hid_updateAdmin db.admins a _ (fun x => ⟨rfl, rfl⟩) rfl rfl hid

/-- The failed authentication that reaches the threshold: the stored row
becomes `lockedRow a t0`, and the call fails with the lockout message. -/
lemma auth_lock_step (db : AdminDb) (a : Admin) (username wrongPw : String)
    (ip ua : Option String) (t0 : Nat)
    (hfind : findAdminByUsername db (normalizeUsername username) = some a)
    (hid : ∀ x ∈ db.admins, x.id = a.id → x.username = a.username)
    (hlock : a.lockedUntil = none) (hactive : a.isActive = true)
    (hwrong : bcryptCompare wrongPw a.password = false)
    (hatmax : MAX_LOGIN_ATTEMPTS ≤ a.loginAttempts + 1) :
    findAdminByUsername (authenticate db username wrongPw ip ua t0).1
        (normalizeUsername username) = some (lockedRow a t0)
    ∧ (∀ x ∈ (authenticate db username wrongPw ip ua t0).1.admins,
        x.id = a.id → x.username = a.username)
    ∧ (∀ x ∈ (authenticate db username wrongPw ip ua t0).1.admins,
        x.id = a.id → x.loginAttempts = a.loginAttempts + 1 ∧
          x.lockedUntil = some (t0 + LOCKOUT_DURATION))
    ∧ (authenticate db username wrongPw ip ua t0).2 =
        .error "Too many failed attempts. Account locked for 15 minutes." := by
  have hstep := authenticate_wrong_lock db a username wrongPw ip ua t0 hfind
    hlock hactive hwrong hatmax
  rw [hstep]
  refine ⟨?_, ?_, ?_, rfl⟩
  · exact find?_username_updateAdmin db.admins a _ _ (fun x => ⟨rfl, rfl⟩)
      hid hfind
  · exact hid_updateAdmin db.admins a _ (fun x => ⟨rfl, rfl⟩) rfl rfl hid
  · exact updateAdmin_mem_prop db a.id _
      (fun x => x.loginAttempts = a.loginAttempts + 1 ∧
        x.lockedUntil = some (t0 + LOCKOUT_DURATION))
      (fun x => ⟨rfl, rfl⟩)

/-- Claim C1: from a fresh unlocked admin, five (the configured threshold)
consecutive wrong-password authentications lock the account until
`t0 + LOCKOUT_DURATION`; while the lock is live even the correct password is
rejected with the `Account locked` error; and on the first authentication
attempt at or after `lockedUntil` the service resets the counter to 0, clears
the lock, and continues normal credential checking — so the correct password
now succeeds and the row ends with a zero counter and no lock. -/
theorem claim1_lockout_threshold
    (db : AdminDb) (a : Admin) (username wrongPw rightPw : String)
    (ip ua : Option String) (t0 t1 t2 : Nat)
    (hfind : findAdminByUsername db (normalizeUsername username) = some a)
    (hid : ∀ x ∈ db.admins, x.id = a.id → x.username = a.username)
    (h0 : a.loginAttempts = 0) (hlock : a.lockedUntil = none)
    (hactive : a.isActive = true)
    (hwrong : bcryptCompare wrongPw a.password = false)
    (hright : bcryptCompare rightPw a.password = true)
    (ht1 : t1 < t0 + LOCKOUT_DURATION) (ht2 : t0 + LOCKOUT_DURATION ≤ t2) :
    let fail := fun d => (authenticate d username wrongPw ip ua t0).1
    let db5 := fail (fail (fail (fail (fail db))))
    (∀ x ∈ db5.admins, x.id = a.id →
      x.loginAttempts = MAX_LOGIN_ATTEMPTS ∧
        x.lockedUntil = some (t0 + LOCKOUT_DURATION))
    ∧ (authenticate db5 username rightPw ip ua t1).2 =
        .error (accountLockedMsg
          ((t0 + LOCKOUT_DURATION - t1 + 59999) / 60000))
    ∧ (authenticate db5 username rightPw ip ua t2).2 =
        .ok (sanitizeUser (lockedRow (failedOnce (failedOnce (failedOnce
              (failedOnce a)))) t0))
    ∧ (∀ x ∈ (authenticate db5 username rightPw ip ua t2).1.admins,
        x.id = a.id → x.loginAttempts = 0 ∧ x.lockedUntil = none) := by
  intro fail db5
  obtain ⟨hf1, hi1, -⟩ := auth_fail_step db a username wrongPw ip ua t0
    hfind hid hlock hactive hwrong (by rw [h0]; decide)
  obtain ⟨hf2, hi2, -⟩ := auth_fail_step _ (failedOnce a) username wrongPw
    ip ua t0 hf1 hi1 rfl hactive hwrong
    (by simp [failedOnce, h0, MAX_LOGIN_ATTEMPTS])
  obtain ⟨hf3, hi3, -⟩ := auth_fail_step _ (failedOnce (failedOnce a))
    username wrongPw ip ua t0 hf2 hi2 rfl hactive hwrong
    (by simp [failedOnce, h0, MAX_LOGIN_ATTEMPTS])
  obtain ⟨hf4, hi4, -⟩ := auth_fail_step _
    (failedOnce (failedOnce (failedOnce a))) username wrongPw ip ua t0 hf3
    hi3 rfl hactive hwrong (by simp [failedOnce, h0, MAX_LOGIN_ATTEMPTS])
  obtain ⟨hf5, hi5, hmem5, -⟩ := auth_lock_step _
    (failedOnce (failedOnce (failedOnce (failedOnce a)))) username wrongPw
    ip ua t0 hf4 hi4 rfl hactive hwrong
    (by simp [failedOnce, h0, MAX_LOGIN_ATTEMPTS])
  refine ⟨?_, ?_, ?_, ?_⟩
  · intro x hx hxid
    obtain ⟨hla, hlu⟩ := hmem5 x hx hxid
    refine ⟨?_, hlu⟩
    rw [hla]
    simp [failedOnce, h0, MAX_LOGIN_ATTEMPTS]
  · have hstepB := authenticate_locked db5
      (lockedRow (failedOnce (failedOnce (failedOnce (failedOnce a)))) t0)
      username rightPw ip ua t1 (t0 + LOCKOUT_DURATION) hf5 rfl ht1
    rw [hstepB]
  · have hstepC := authenticate_success_expired db5
      (lockedRow (failedOnce (failedOnce (failedOnce (failedOnce a)))) t0)
      username rightPw ip ua t2 (t0 + LOCKOUT_DURATION) hf5 rfl ht2 hactive
      hright
    rw [hstepC]
  · have hstepC := authenticate_success_expired db5
      (lockedRow (failedOnce (failedOnce (failedOnce (failedOnce a)))) t0)
      username rightPw ip ua t2 (t0 + LOCKOUT_DURATION) hf5 rfl ht2 hactive
      hright
    intro x hx hxid
    rw [hstepC] at hx
    exact updateAdmin_mem_prop _
      (lockedRow (failedOnce (failedOnce (failedOnce (failedOnce a)))) t0).id
      _ (fun x => x.loginAttempts = 0 ∧ x.lockedUntil = none)
      (fun x => ⟨rfl, rfl⟩) x hx hxid

/-- Witness for C1: the seeded admin, five wrong passwords at time 0, then the
correct password at 100 ms (rejected, 15 minutes left) and at exactly the lock
expiry (accepted). -/
theorem claim1_witness :
    (let fail := fun d => (authenticate d "admin" "wrongpass1" none none 0).1
     let db5 := fail (fail (fail (fail (fail dbSeed))))
     (authenticate db5 "admin" "admin123" none none 100).2 =
       .error (accountLockedMsg 15)
     ∧ (authenticate db5 "admin" "admin123" none none 900000).2 =
       .ok (sanitizeUser (lockedRow (failedOnce (failedOnce (failedOnce
             (failedOnce adminSeed)))) 0))) := by
  have h := claim1_lockout_threshold dbSeed adminSeed "admin" "wrongpass1"
    "admin123" none none 0 100 900000 (by decide)
    (by intro x hx hxid; simp [dbSeed] at hx; rw [hx]) rfl rfl rfl
    (by decide) (by decide) (by decide) (by decide)
  exact ⟨h.2.1, h.2.2.1⟩

end LogosWaitlist
